import Mathlib

/-!
Verification of the orientation / locomotion / camera core of the
`space-game` repository (src/src/components/Game.jsx).

The repository's Game.jsx contains two concatenated iterations of the same
scene component.  Both keep the body's orientation as a mutable Euler triple
`characterRotation = {x, y, z}` (pitch, yaw, roll), the linear velocity and
position as 3-vectors, and rebuild the applied quaternion each frame as
yaw * pitch * roll (times a constant model correction for the mesh).

All numeric state is embedded over `ℝ`; `Real.cos` / `Real.sin` stand for
`Math.cos` / `Math.sin`.
-/

open Real

noncomputable section

/-- A 3-component vector, embedding the `{x, y, z}` objects of Game.jsx. -/
@[ext]
structure Vec3 where
  x : ℝ
  y : ℝ
  z : ℝ

/-- The body's Euler rotation state `characterRotation = {x, y, z}`
(pitch about X, yaw about Y, roll about Z). -/
@[ext]
structure Rot3 where
  x : ℝ
  y : ℝ
  z : ℝ

/-- Componentwise vector addition (`prev.x + v.x`, ...). -/
def addV (a b : Vec3) : Vec3 := ⟨a.x + b.x, a.y + b.y, a.z + b.z⟩

/-- Vector times a scalar on the right, as written in the source
(`thrusts[key].x * thrustPower`). -/
def mulV (v : Vec3) (c : ℝ) : Vec3 := ⟨v.x * c, v.y * c, v.z * c⟩

/-- Componentwise negation (`{ x: -forward.x, ... }`). -/
def negV (v : Vec3) : Vec3 := ⟨-v.x, -v.y, -v.z⟩

/-- Euclidean dot product. -/
def dotV (a b : Vec3) : ℝ := a.x * b.x + a.y * b.y + a.z * b.z

/-- Squared Euclidean length. -/
def normSqV (v : Vec3) : ℝ := dotV v v

/-- Rotation about the world X axis by `θ` radians (standard right-handed
rotation matrix, the linear action of `THREE.Quaternion.setFromAxisAngle((1,0,0), θ)`). -/
def rotX (θ : ℝ) (v : Vec3) : Vec3 :=
  ⟨v.x, Real.cos θ * v.y - Real.sin θ * v.z, Real.sin θ * v.y + Real.cos θ * v.z⟩

/-- Rotation about the world Y axis by `θ` radians. -/
def rotY (θ : ℝ) (v : Vec3) : Vec3 :=
  ⟨Real.cos θ * v.x + Real.sin θ * v.z, v.y, -(Real.sin θ) * v.x + Real.cos θ * v.z⟩

/-- Rotation about the world Z axis by `θ` radians. -/
def rotZ (θ : ℝ) (v : Vec3) : Vec3 :=
  ⟨Real.cos θ * v.x - Real.sin θ * v.y, Real.sin θ * v.x + Real.cos θ * v.y, v.z⟩

/-- The rotation the program's quaternion `yawQuat * pitchQuat * rollQuat`
(Character / CameraRotationSync / CubeRotationSync `useFrame` bodies) induces on
world vectors: the product quaternion acts as `rotY` after `rotX` after `rotZ`. -/
def rotApply (rot : Rot3) (v : Vec3) : Vec3 :=
  rotY rot.y (rotX rot.x (rotZ rot.z v))

/-- Game.jsx `handleKeyDown`: `forward = { x: -sinY * cosX, y: sinX, z: -cosY * cosX }`. -/
def forwardDir (rot : Rot3) : Vec3 :=
  ⟨-(Real.sin rot.y) * Real.cos rot.x, Real.sin rot.x, -(Real.cos rot.y) * Real.cos rot.x⟩

/-- Game.jsx `handleKeyDown`: `right = { x: forward.z, y: 0, z: -forward.x }`
(the source's own comment calls this a "Simplified right vector"). -/
def rightDir (rot : Rot3) : Vec3 :=
  ⟨(forwardDir rot).z, 0, -((forwardDir rot).x)⟩

/-- Game.jsx `handleKeyDown`: `up = { x: cosY * sinX, y: -cosX, z: sinY * sinX }`. -/
def upDir (rot : Rot3) : Vec3 :=
  ⟨Real.cos rot.y * Real.sin rot.x, -(Real.cos rot.x), Real.sin rot.y * Real.sin rot.x⟩

/-- The component-local state of the `Game` component that the claims are
about: `characterRotation`, `characterVelocity`, `characterPosition`, and the
pointer-drag session fields `isMouseDown`, `lastMouseX`, `lastMouseY`. -/
structure GameState where
  rotation : Rot3
  velocity : Vec3
  position : Vec3
  isMouseDown : Bool
  lastMouseX : ℝ
  lastMouseY : ℝ

/-- The initial `useState` values: rotation `{0,0,0}`, velocity `{0,0,0}`,
position `{0,0,0}`, mouse not down, last mouse coordinates `0`. -/
def initialState : GameState :=
  { rotation := ⟨0, 0, 0⟩
    velocity := ⟨0, 0, 0⟩
    position := ⟨0, 0, 0⟩
    isMouseDown := false
    lastMouseX := 0
    lastMouseY := 0 }

/-- Mouse sensitivity constant: `const sensitivity = 0.01`. -/
def sensitivity : ℝ := 0.01

/-- First-version `handleMouseMove` (Game.jsx lines 313-337): while the mouse
is down, pitch `x` decreases by `deltaY * sensitivity` with no bounds, yaw `y`
decreases by `deltaX * sensitivity`, roll `z` is set to `0`, and the last
mouse coordinates are updated. -/
def handleMouseMove (clientX clientY : ℝ) (s : GameState) : GameState :=
  if s.isMouseDown then
    let deltaX := clientX - s.lastMouseX
    let deltaY := clientY - s.lastMouseY
    { s with
      rotation := ⟨s.rotation.x - deltaY * sensitivity,
                   s.rotation.y - deltaX * sensitivity, 0⟩
      lastMouseX := clientX
      lastMouseY := clientY }
  else s

/-- Second-version `handleMouseMove` (Game.jsx lines 745-769): identical
except the new pitch is clamped,
`Math.max(-Math.PI/2, Math.min(Math.PI/2, prev.x - deltaY * sensitivity))`. -/
def handleMouseMoveV2 (clientX clientY : ℝ) (s : GameState) : GameState :=
  if s.isMouseDown then
    let deltaX := clientX - s.lastMouseX
    let deltaY := clientY - s.lastMouseY
    { s with
      rotation := ⟨max (-(π / 2)) (min (π / 2) (s.rotation.x - deltaY * sensitivity)),
                   s.rotation.y - deltaX * sensitivity, 0⟩
      lastMouseX := clientX
      lastMouseY := clientY }
  else s

/-- The logical keys `handleKeyDown` distinguishes (first version; the second
version lacks the roll keys `r` / `f`). -/
inductive Key where
  | w | s | a | d | q | e | space | r | f | other
deriving DecidableEq, Repr

/-- Thrust power constant: `const thrustPower = 0.5`. -/
def thrustPower : ℝ := 0.5

/-- Roll speed constant: `const rotationSpeed = 0.1`. -/
def rotationSpeed : ℝ := 0.1

/-- First-version `handleKeyDown` (Game.jsx lines 340-386) with the local
constants `thrustPower` and `rotationSpeed` as parameters `p` and `rs`:
`w`/`s`/`a`/`d`/`q`/`e` add the corresponding direction vector times `p` to the
velocity, space sets the velocity to `{0,0,0}`, and `r`/`f` decrement /
increment the roll component `z` by `rs`. -/
def handleKeyDownWith (p rs : ℝ) (k : Key) (s : GameState) : GameState :=
  match k with
  | .w => { s with velocity := addV s.velocity (mulV (forwardDir s.rotation) p) }
  | .s => { s with velocity := addV s.velocity (mulV (negV (forwardDir s.rotation)) p) }
  | .a => { s with velocity := addV s.velocity (mulV (rightDir s.rotation) p) }
  | .d => { s with velocity := addV s.velocity (mulV (negV (rightDir s.rotation)) p) }
  | .q => { s with velocity := addV s.velocity (mulV (upDir s.rotation) p) }
  | .e => { s with velocity := addV s.velocity (mulV (negV (upDir s.rotation)) p) }
  | .space => { s with velocity := ⟨0, 0, 0⟩ }
  | .r => { s with rotation := ⟨s.rotation.x, s.rotation.y, s.rotation.z - rs⟩ }
  | .f => { s with rotation := ⟨s.rotation.x, s.rotation.y, s.rotation.z + rs⟩ }
  | .other => s

/-- `handleKeyDown` with the source's constant values. -/
def handleKeyDown (k : Key) (s : GameState) : GameState :=
  handleKeyDownWith thrustPower rotationSpeed k s

/-- World boundary constant: `const maxDistance = 400`. -/
def maxDistance : ℝ := 400

/-- Per-axis boundary clamp: `Math.max(-maxDistance, Math.min(maxDistance, v))`. -/
def clampCoord (v : ℝ) : ℝ := max (-maxDistance) (min maxDistance v)

/-- One iteration of the 16 ms physics interval (Game.jsx lines 411-432 /
830-851, identical in both versions): the position becomes the old position
plus the velocity, clamped componentwise to the `±maxDistance` box; nothing
else is touched. -/
def physicsTick (s : GameState) : GameState :=
  { s with
    position := ⟨clampCoord (s.position.x + s.velocity.x),
                 clampCoord (s.position.y + s.velocity.y),
                 clampCoord (s.position.z + s.velocity.z)⟩ }

/-- `THREE.Quaternion.setFromAxisAngle(axis, angle)` for a unit axis:
the quaternion `(cos(angle/2), axis * sin(angle/2))`. -/
def setFromAxisAngle (axis : Vec3) (angle : ℝ) : Quaternion ℝ :=
  ⟨Real.cos (angle / 2), axis.x * Real.sin (angle / 2),
   axis.y * Real.sin (angle / 2), axis.z * Real.sin (angle / 2)⟩

/-- The yaw factor `setFromAxisAngle((0,1,0), rotation.y)`. -/
def yawQuat (rot : Rot3) : Quaternion ℝ := setFromAxisAngle ⟨0, 1, 0⟩ rot.y

/-- The pitch factor `setFromAxisAngle((1,0,0), rotation.x)`. -/
def pitchQuat (rot : Rot3) : Quaternion ℝ := setFromAxisAngle ⟨1, 0, 0⟩ rot.x

/-- The roll factor `setFromAxisAngle((0,0,1), rotation.z)`. -/
def rollQuat (rot : Rot3) : Quaternion ℝ := setFromAxisAngle ⟨0, 0, 1⟩ rot.z

/-- The constant model correction `setFromAxisAngle((0,1,0), π)` applied last
to the character mesh (the model is authored facing backward). -/
def initialQuat : Quaternion ℝ := setFromAxisAngle ⟨0, 1, 0⟩ π

/-- The orientation state's quaternion: the body orientation as composed in
`CameraRotationSync` (and as the first three factors in `Character`), starting
from the identity `new THREE.Quaternion()` and post-multiplying yaw, pitch,
roll. -/
def bodyQuat (rot : Rot3) : Quaternion ℝ :=
  ((1 * yawQuat rot) * pitchQuat rot) * rollQuat rot

/-- The quaternion `Character`'s `useFrame` applies to the mesh each frame:
yaw * pitch * roll * model correction. -/
def characterQuat (rot : Rot3) : Quaternion ℝ :=
  (((1 * yawQuat rot) * pitchQuat rot) * rollQuat rot) * initialQuat

/-- The quaternion `CameraRotationSync`'s `useFrame` copies onto the camera:
the same yaw * pitch * roll composition, with no model correction. -/
def cameraQuat (rot : Rot3) : Quaternion ℝ :=
  ((1 * yawQuat rot) * pitchQuat rot) * rollQuat rot

/-- Camera distance constant: `const cameraDistance = 15`. -/
def cameraDistance : ℝ := 15

/-- Camera position as computed literally in `CameraRotationSync`
(Game.jsx lines 128-149): `backward = (sinY*cosX, -sinX, cosY*cosX)` and
`camera = characterPosition + backward * cameraDistance`. -/
def cameraPosCode (rot : Rot3) (pos : Vec3) : Vec3 :=
  ⟨pos.x + Real.sin rot.y * Real.cos rot.x * cameraDistance,
   pos.y + -(Real.sin rot.x) * cameraDistance,
   pos.z + Real.cos rot.y * Real.cos rot.x * cameraDistance⟩

/-- Camera position as computed literally in the second version's
`ThirdPersonCamera` (Game.jsx lines 606-632); the formula is the same. -/
def thirdPersonCameraPos (rot : Rot3) (pos : Vec3) : Vec3 :=
  ⟨pos.x + Real.sin rot.y * Real.cos rot.x * cameraDistance,
   pos.y - Real.sin rot.x * cameraDistance,
   pos.z + Real.cos rot.y * Real.cos rot.x * cameraDistance⟩

/-- Spec-side camera offset constant: the spec's `upOffset` (the code adds no
offset along the body's up axis, so it equals `0`). -/
def upOffset : ℝ := 0

/-- Spec-side camera offset constant: the spec's `backOffset` (equal to the
code's `cameraDistance = 15`). -/
def backOffset : ℝ := 15

/-- Modelled from the spec for the refinement comparison in claim C4:
`cameraPosition = position + basisVectors(orientation).up * upOffset +
basisVectors(orientation).forward.negated() * backOffset`, where
`basisVectors(q).forward` rotates `(0,0,-1)` and `.up` rotates `(0,1,0)`
by the orientation. -/
def cameraPosSpec (rot : Rot3) (pos : Vec3) : Vec3 :=
  addV (addV pos (mulV (rotApply rot ⟨0, 1, 0⟩) upOffset))
       (mulV (negV (rotApply rot ⟨0, 0, -1⟩)) backOffset)

/-- Stated from the claim's words (the comparison side for claim C2): the new
orientation after a drag sample with raw deltas `(dx, dy)`, obtained from the
old orientation `R` by a pitch of `-dy * sensitivity` about the current local
right axis and then a yaw of `-dx * sensitivity` about the current local up
axis (body-axis rotations compose on the right). -/
def specDragPitchThenYaw (R : Vec3 → Vec3) (dx dy : ℝ) : Vec3 → Vec3 :=
  fun v => R (rotX (-dy * sensitivity) (rotY (-dx * sensitivity) v))

/-- Stated from the claim's words, with the two incremental rotations composed
in the other order (yaw about local up, then pitch about local right). -/
def specDragYawThenPitch (R : Vec3 → Vec3) (dx dy : ℝ) : Vec3 → Vec3 :=
  fun v => R (rotY (-dx * sensitivity) (rotX (-dy * sensitivity) v))

/-- The three gravity regimes of the spec's locomotion state machine. -/
inductive Regime where
  | free | planar | radial
deriving DecidableEq, Repr

/-- Modelled from the spec: the state of the Locomotion & Gravity State
Machine (no gravity-zone code exists under src/, only planning documents), as
described by the spec's data model: the active regime, the accumulated yaw
offset, the body's orientation, and the referenced attractor center while
Radial is active. -/
structure ZoneState where
  regime : Regime
  yawOffset : ℝ
  rot : Rot3
  attractor : Option Vec3

/-- Modelled from the spec: transition `Free --enter planar zone--> Planar`,
side effect "reset yaw offset to 0; zero out any non-yaw rotation component". -/
def enterPlanarZone (s : ZoneState) : ZoneState :=
  { s with regime := .planar, yawOffset := 0, rot := ⟨0, s.rot.y, 0⟩ }

/-- Modelled from the spec: transition `Planar --exit planar zone--> Free`,
side effect "no orientation change". -/
def exitPlanarZone (s : ZoneState) : ZoneState :=
  { s with regime := .free }

/-- Modelled from the spec: transition `Free/Planar --enter radial zone-->
Radial`, side effect "reset yaw offset to 0; record attractor reference". -/
def enterRadialZone (center : Vec3) (s : ZoneState) : ZoneState :=
  { s with regime := .radial, yawOffset := 0, attractor := some center }

/-- Modelled from the spec: transition `Radial --exit radial zone--> Free`,
side effect "clear attractor reference; reset yaw offset to 0". -/
def exitRadialZone (s : ZoneState) : ZoneState :=
  { s with regime := .free, attractor := none, yawOffset := 0 }

/-! ## Theorems -/

/-- C8: pressing the brake input (space) sets the linear velocity to exactly
`(0, 0, 0)` in a single step, regardless of the prior velocity, and leaves the
rotation state untouched (the code keeps no angular/roll velocity at all: the
roll keys mutate the rotation directly, so there is no angular velocity left
to zero and the brake does nothing to the rotation). -/
theorem c8_brake_zeroes_velocity (s : GameState) :
    (handleKeyDown Key.space s).velocity = ⟨0, 0, 0⟩ ∧
    (handleKeyDown Key.space s).rotation = s.rotation ∧
    (handleKeyDown Key.space s).position = s.position := by
  refine ⟨rfl, rfl, rfl⟩

/-- C9: after every physics tick each coordinate of the position lies in
`[-400, 400]`: the tick adds the velocity to the position and clamps each
coordinate to that box, and it leaves velocity and rotation unchanged. -/
theorem c9_tick_clamps_position (s : GameState) :
    (physicsTick s).position.x = clampCoord (s.position.x + s.velocity.x) ∧
    (physicsTick s).position.y = clampCoord (s.position.y + s.velocity.y) ∧
    (physicsTick s).position.z = clampCoord (s.position.z + s.velocity.z) ∧
    -400 ≤ (physicsTick s).position.x ∧ (physicsTick s).position.x ≤ 400 ∧
    -400 ≤ (physicsTick s).position.y ∧ (physicsTick s).position.y ≤ 400 ∧
    -400 ≤ (physicsTick s).position.z ∧ (physicsTick s).position.z ≤ 400 ∧
    (physicsTick s).velocity = s.velocity ∧
    (physicsTick s).rotation = s.rotation := by
  have hlo : ∀ v : ℝ, -400 ≤ clampCoord v := by
    intro v
    have : (-400 : ℝ) = -maxDistance := by unfold maxDistance; ring
    rw [this]
    exact le_max_left _ _
  have hhi : ∀ v : ℝ, clampCoord v ≤ 400 := by
    intro v
    unfold clampCoord maxDistance
    exact max_le (by norm_num) (min_le_left _ _)
  exact ⟨rfl, rfl, rfl, hlo _, hhi _, hlo _, hhi _, hlo _, hhi _, rfl, rfl⟩

/-- C10: every pointer-move sample processed while the pointer is engaged sets
the roll component of the rotation to exactly `0` (in both versions of the
handler), even when the roll keys had previously accumulated a nonzero roll. -/
theorem c10_drag_zeroes_roll (clientX clientY : ℝ) (s : GameState)
    (hm : s.isMouseDown = true) :
    (handleMouseMove clientX clientY s).rotation.z = 0 ∧
    (handleMouseMoveV2 clientX clientY s).rotation.z = 0 := by
  constructor <;> simp [handleMouseMove, handleMouseMoveV2, hm]

/-- C10 witness: a drag sample at a state whose roll was driven to `3/10` by
roll-key input zeroes the roll in both handler versions. -/
theorem c10_drag_zeroes_roll_witness :
    (handleMouseMove 5 7
      ⟨⟨1, 2, 3 / 10⟩, ⟨0, 0, 0⟩, ⟨0, 0, 0⟩, true, 0, 0⟩).rotation.z = 0 ∧
    (handleMouseMoveV2 5 7
      ⟨⟨1, 2, 3 / 10⟩, ⟨0, 0, 0⟩, ⟨0, 0, 0⟩, true, 0, 0⟩).rotation.z = 0 :=
  c10_drag_zeroes_roll 5 7 ⟨⟨1, 2, 3 / 10⟩, ⟨0, 0, 0⟩, ⟨0, 0, 0⟩, true, 0, 0⟩ rfl

/-- C5: from the initial state (origin, identity orientation, zero velocity,
free flight), one thrust-forward key press with thrust power `p` makes the
velocity exactly `(0, 0, -p)`, and the next physics tick adds that velocity to
the position (the in-box hypotheses keep the boundary clamp inactive). -/
theorem c5_thrust_forward_one_tick (p : ℝ) (h1 : -400 ≤ p) (h2 : p ≤ 400) :
    (handleKeyDownWith p rotationSpeed Key.w initialState).velocity = ⟨0, 0, -p⟩ ∧
    (physicsTick (handleKeyDownWith p rotationSpeed Key.w initialState)).position =
      addV initialState.position ⟨0, 0, -p⟩ := by
  have hs1 : handleKeyDownWith p rotationSpeed Key.w initialState =
      ⟨⟨0, 0, 0⟩, ⟨0, 0, -p⟩, ⟨0, 0, 0⟩, false, 0, 0⟩ := by
    simp [handleKeyDownWith, initialState, addV, mulV, forwardDir]
  have h0 : clampCoord 0 = 0 := by
    unfold clampCoord maxDistance
    rw [min_eq_right (by norm_num), max_eq_right (by norm_num)]
  have hc : clampCoord (-p) = -p := by
    unfold clampCoord maxDistance
    rw [min_eq_right (by linarith), max_eq_right (by linarith)]
  rw [hs1]
  refine ⟨rfl, ?_⟩
  simp [physicsTick, addV, initialState, h0, hc]

/-- C5 witness: with the spec's example power `p = 2`, the velocity after the
press is `(0, 0, -2)` and the position after the tick is `(0, 0, -2)`. -/
theorem c5_thrust_forward_one_tick_witness :
    (handleKeyDownWith 2 rotationSpeed Key.w initialState).velocity = ⟨0, 0, -2⟩ ∧
    (physicsTick (handleKeyDownWith 2 rotationSpeed Key.w initialState)).position =
      addV initialState.position ⟨0, 0, -2⟩ :=
  c5_thrust_forward_one_tick 2 (by norm_num) (by norm_num)

/-- Helper: an axis-angle quaternion built from a unit axis has squared norm 1
(exactly, in real arithmetic). -/
theorem normSq_setFromAxisAngle (axis : Vec3) (angle : ℝ)
    (h : axis.x ^ 2 + axis.y ^ 2 + axis.z ^ 2 = 1) :
    Quaternion.normSq (setFromAxisAngle axis angle) = 1 := by
  have hs := Real.sin_sq_add_cos_sq (angle / 2)
  simp only [setFromAxisAngle, Quaternion.normSq_def']
  have : (axis.x * Real.sin (angle / 2)) ^ 2 + (axis.y * Real.sin (angle / 2)) ^ 2 +
      (axis.z * Real.sin (angle / 2)) ^ 2 =
      (axis.x ^ 2 + axis.y ^ 2 + axis.z ^ 2) * Real.sin (angle / 2) ^ 2 := by ring
  nlinarith [this]

/-- C7: for every rotation state, the quaternion the program applies to the
body each frame (and the one copied to the camera) has squared norm exactly 1:
each factor is an axis-angle quaternion over a unit axis, and the squared norm
is multiplicative, so the product stays on the unit sphere with no
renormalization step needed in exact arithmetic. -/
theorem c7_quaternion_unit_norm (rot : Rot3) :
    Quaternion.normSq (characterQuat rot) = 1 ∧
    Quaternion.normSq (bodyQuat rot) = 1 ∧
    Quaternion.normSq (cameraQuat rot) = 1 := by
  have hy : Quaternion.normSq (yawQuat rot) = 1 :=
    normSq_setFromAxisAngle ⟨0, 1, 0⟩ rot.y (by norm_num)
  have hx : Quaternion.normSq (pitchQuat rot) = 1 :=
    normSq_setFromAxisAngle ⟨1, 0, 0⟩ rot.x (by norm_num)
  have hz : Quaternion.normSq (rollQuat rot) = 1 :=
    normSq_setFromAxisAngle ⟨0, 0, 1⟩ rot.z (by norm_num)
  have hi : Quaternion.normSq initialQuat = 1 :=
    normSq_setFromAxisAngle ⟨0, 1, 0⟩ π (by norm_num)
  refine ⟨?_, ?_, ?_⟩ <;>
    simp [characterQuat, bodyQuat, cameraQuat, map_mul, hy, hx, hz, hi]

/-- C4: for every body position and orientation, the camera position the code
computes (in both versions) equals the spec formula
`position + up * upOffset + forward.negated() * backOffset` with
`upOffset = 0` and `backOffset = 15`, and under the copy-orientation policy
(`CameraRotationSync`) the camera quaternion equals the body orientation
quaternion exactly (the character mesh additionally applies only the constant
model-authoring correction `initialQuat`). -/
theorem c4_camera_pose (rot : Rot3) (pos : Vec3) :
    cameraPosCode rot pos = cameraPosSpec rot pos ∧
    thirdPersonCameraPos rot pos = cameraPosSpec rot pos ∧
    cameraQuat rot = bodyQuat rot := by
  refine ⟨?_, ?_, rfl⟩ <;>
    · ext <;>
        simp [cameraPosCode, thirdPersonCameraPos, cameraPosSpec, addV, mulV, negV,
          rotApply, rotX, rotY, rotZ, upOffset, backOffset, cameraDistance] <;>
        ring

/-- C1 (code bug): the three direction vectors `handleKeyDown` derives from
the rotation state are not an orthonormal frame.  At pitch `π/4` (yaw and roll
zero) the forward and up vectors have dot product `-1/2` instead of `0`, and
the "simplified" right vector has squared length `1/2` instead of `1`; at the
identity rotation the up vector is `(0, -1, 0)`, pointing down, so the key
documented `Up` in the source thrusts downward. -/
theorem c1_basis_not_orthonormal :
    dotV (forwardDir ⟨π / 4, 0, 0⟩) (upDir ⟨π / 4, 0, 0⟩) = -(1 / 2) ∧
    dotV (forwardDir ⟨π / 4, 0, 0⟩) (upDir ⟨π / 4, 0, 0⟩) ≠ 0 ∧
    normSqV (rightDir ⟨π / 4, 0, 0⟩) = 1 / 2 ∧
    normSqV (rightDir ⟨π / 4, 0, 0⟩) ≠ 1 ∧
    upDir ⟨0, 0, 0⟩ = ⟨0, -1, 0⟩ := by
  have h2 : Real.sqrt 2 ^ 2 = 2 := Real.sq_sqrt (by norm_num)
  have hd : dotV (forwardDir ⟨π / 4, 0, 0⟩) (upDir ⟨π / 4, 0, 0⟩) = -(1 / 2) := by
    simp [dotV, forwardDir, upDir, Real.sin_pi_div_four, Real.cos_pi_div_four]
    nlinarith [h2]
  have hr : normSqV (rightDir ⟨π / 4, 0, 0⟩) = 1 / 2 := by
    simp [normSqV, dotV, rightDir, forwardDir, Real.sin_pi_div_four,
      Real.cos_pi_div_four]
    nlinarith [h2]
  refine ⟨hd, by rw [hd]; norm_num, hr, by rw [hr]; norm_num, ?_⟩
  ext <;> simp [upDir]

/-- Helper: successive rotations about the world Y axis add their angles. -/
theorem rotY_rotY (a b : ℝ) (v : Vec3) : rotY a (rotY b v) = rotY (a + b) v := by
  ext <;> simp [rotY, Real.cos_add, Real.sin_add] <;> ring

/-- Helper: successive rotations about the world X axis add their angles. -/
theorem rotX_rotX (a b : ℝ) (v : Vec3) : rotX a (rotX b v) = rotX (a + b) v := by
  ext <;> simp [rotX, Real.cos_add, Real.sin_add] <;> ring

/-- Helper: a zero-angle rotation about the Z axis is the identity. -/
theorem rotZ_zero (v : Vec3) : rotZ 0 v = v := by
  ext <;> simp [rotZ]

/-- C2 (amended): in free flight, a pointer-drag sample with raw deltas
`(dx, dy)` updates the orientation by a pitch of `-dy * sensitivity` about the
current local right axis (body-frame composition, on the right) and a yaw of
`-dx * sensitivity` about the WORLD up axis (world-frame composition, on the
left), with the roll reset to zero — not a yaw about the local up axis. -/
theorem c2_drag_pitch_local_yaw_world (clientX clientY : ℝ) (s : GameState)
    (hm : s.isMouseDown = true) (hz : s.rotation.z = 0) (v : Vec3) :
    rotApply (handleMouseMove clientX clientY s).rotation v =
      rotY (-(clientX - s.lastMouseX) * sensitivity)
        (rotApply s.rotation
          (rotX (-(clientY - s.lastMouseY) * sensitivity) v)) := by
  simp only [handleMouseMove, hm, if_true, rotApply, hz]
  rw [rotZ_zero, rotZ_zero, rotX_rotX, rotY_rotY]
  have h1 : s.rotation.y - (clientX - s.lastMouseX) * sensitivity =
      -(clientX - s.lastMouseX) * sensitivity + s.rotation.y := by ring
  have h2 : s.rotation.x - (clientY - s.lastMouseY) * sensitivity =
      s.rotation.x + -(clientY - s.lastMouseY) * sensitivity := by ring
  rw [h1, h2]

/-- C2 witness: the amended drag update at a concrete engaged state and input. -/
theorem c2_drag_pitch_local_yaw_world_witness :
    rotApply (handleMouseMove 3 4
        ⟨⟨0, 0, 0⟩, ⟨0, 0, 0⟩, ⟨0, 0, 0⟩, true, 1, 2⟩).rotation ⟨5, 6, 7⟩ =
      rotY (-(3 - (⟨⟨0, 0, 0⟩, ⟨0, 0, 0⟩, ⟨0, 0, 0⟩, true, 1, 2⟩ :
            GameState).lastMouseX) * sensitivity)
        (rotApply (⟨⟨0, 0, 0⟩, ⟨0, 0, 0⟩, ⟨0, 0, 0⟩, true, 1, 2⟩ :
            GameState).rotation
          (rotX (-(4 - (⟨⟨0, 0, 0⟩, ⟨0, 0, 0⟩, ⟨0, 0, 0⟩, true, 1, 2⟩ :
            GameState).lastMouseY) * sensitivity) ⟨5, 6, 7⟩)) :=
  c2_drag_pitch_local_yaw_world 3 4
    ⟨⟨0, 0, 0⟩, ⟨0, 0, 0⟩, ⟨0, 0, 0⟩, true, 1, 2⟩ rfl rfl ⟨5, 6, 7⟩

/-- C2 (counterexample): starting from pitch `π/2` with the pointer engaged, a
pure-yaw drag sample with `dx = -50π` (so a yaw increment of `+π/2`) sends the
code's forward direction to `(0, 1, 0)`, while a yaw of the same size about
the body's current LOCAL up axis — in either composition order with the (here
trivial) pitch increment, as the claim states — would send it to `(-1, 0, 0)`.
The code therefore does not yaw about the local up axis. -/
theorem c2_counterexample_yaw_not_local :
    rotApply (handleMouseMove (-(50 * π)) 0
        ⟨⟨π / 2, 0, 0⟩, ⟨0, 0, 0⟩, ⟨0, 0, 0⟩, true, 0, 0⟩).rotation ⟨0, 0, -1⟩ =
      ⟨0, 1, 0⟩ ∧
    specDragPitchThenYaw (rotApply ⟨π / 2, 0, 0⟩) (-(50 * π) - 0) (0 - 0)
        ⟨0, 0, -1⟩ = ⟨-1, 0, 0⟩ ∧
    specDragYawThenPitch (rotApply ⟨π / 2, 0, 0⟩) (-(50 * π) - 0) (0 - 0)
        ⟨0, 0, -1⟩ = ⟨-1, 0, 0⟩ ∧
    (⟨0, 1, 0⟩ : Vec3) ≠ ⟨-1, 0, 0⟩ := by
  have hyaw : -(-(50 * π) - 0) * sensitivity = π / 2 := by
    norm_num [sensitivity]
    ring
  have hstate : handleMouseMove (-(50 * π)) 0
      ⟨⟨π / 2, 0, 0⟩, ⟨0, 0, 0⟩, ⟨0, 0, 0⟩, true, 0, 0⟩ =
      ⟨⟨π / 2, π / 2, 0⟩, ⟨0, 0, 0⟩, ⟨0, 0, 0⟩, true, -(50 * π), 0⟩ := by
    simp [handleMouseMove, sensitivity]
    ring
  refine ⟨?_, ?_, ?_, ?_⟩
  · rw [hstate]
    ext <;>
      simp [rotApply, rotX, rotY, rotZ, Real.sin_pi_div_two, Real.cos_pi_div_two]
  · show rotApply ⟨π / 2, 0, 0⟩
        (rotX (-(0 - 0) * sensitivity)
          (rotY (-(-(50 * π) - 0) * sensitivity) ⟨0, 0, -1⟩)) = ⟨-1, 0, 0⟩
    rw [hyaw]
    ext <;>
      simp [rotApply, rotX, rotY, rotZ, Real.sin_pi_div_two, Real.cos_pi_div_two]
  · show rotApply ⟨π / 2, 0, 0⟩
        (rotY (-(-(50 * π) - 0) * sensitivity)
          (rotX (-(0 - 0) * sensitivity) ⟨0, 0, -1⟩)) = ⟨-1, 0, 0⟩
    rw [hyaw]
    ext <;>
      simp [rotApply, rotX, rotY, rotZ, Real.sin_pi_div_two, Real.cos_pi_div_two]
  · intro h
    exact absurd (congrArg Vec3.y h) (by norm_num)

/-- C3 (counterexample): the pitch-clamp claim fails in the second version of
the source.  From pitch `π/2` with the pointer engaged, an upward drag sample
leaves the second version's pitch at exactly `π/2` (clamped), while the first
version's pitch moves past vertical to `π/2 + 0.01`. -/
theorem c3_counterexample_second_version_clamps :
    (handleMouseMoveV2 0 (-1)
        ⟨⟨π / 2, 0, 0⟩, ⟨0, 0, 0⟩, ⟨0, 0, 0⟩, true, 0, 0⟩).rotation.x = π / 2 ∧
    (handleMouseMove 0 (-1)
        ⟨⟨π / 2, 0, 0⟩, ⟨0, 0, 0⟩, ⟨0, 0, 0⟩, true, 0, 0⟩).rotation.x =
      π / 2 + 0.01 := by
  constructor
  · simp only [handleMouseMoveV2, if_true]
    have harg : π / 2 - (-1 - 0) * sensitivity = π / 2 + 0.01 := by
      norm_num [sensitivity]
    rw [harg, min_eq_left (by norm_num), max_eq_right (by linarith [Real.pi_pos])]
  · simp only [handleMouseMove, if_true]
    norm_num [sensitivity]

/-- C3 (amended): in the second version of the source the pitch produced by an
engaged drag sample is always clamped to `[-π/2, π/2]`, while in the first
version it is unclamped: from any engaged state the pitch can be driven past
any bound by a single drag sample. -/
theorem c3_pitch_clamped_only_in_second_version (s : GameState)
    (hm : s.isMouseDown = true) :
    (∀ clientX clientY,
      -(π / 2) ≤ (handleMouseMoveV2 clientX clientY s).rotation.x ∧
      (handleMouseMoveV2 clientX clientY s).rotation.x ≤ π / 2) ∧
    (∀ M : ℝ, ∃ clientY,
      M < (handleMouseMove s.lastMouseX clientY s).rotation.x) := by
  constructor
  · intro clientX clientY
    simp only [handleMouseMoveV2, hm, if_true]
    exact ⟨le_max_left _ _,
      max_le (by linarith [Real.pi_pos]) (min_le_left _ _)⟩
  · intro M
    refine ⟨s.lastMouseY - (M + 1 - s.rotation.x) / sensitivity, ?_⟩
    simp only [handleMouseMove, hm, if_true]
    have hsen : sensitivity ≠ 0 := by norm_num [sensitivity]
    have hval : s.rotation.x -
        (s.lastMouseY - (M + 1 - s.rotation.x) / sensitivity - s.lastMouseY) *
          sensitivity = M + 1 := by
      field_simp
      ring
    rw [hval]
    linarith

/-- C3 witness: the amended statement at a concrete engaged state. -/
theorem c3_pitch_clamped_only_in_second_version_witness :
    (∀ clientX clientY,
      -(π / 2) ≤ (handleMouseMoveV2 clientX clientY
        ⟨⟨0, 0, 0⟩, ⟨0, 0, 0⟩, ⟨0, 0, 0⟩, true, 0, 0⟩).rotation.x ∧
      (handleMouseMoveV2 clientX clientY
        ⟨⟨0, 0, 0⟩, ⟨0, 0, 0⟩, ⟨0, 0, 0⟩, true, 0, 0⟩).rotation.x ≤ π / 2) ∧
    (∀ M : ℝ, ∃ clientY,
      M < (handleMouseMove
        (⟨⟨0, 0, 0⟩, ⟨0, 0, 0⟩, ⟨0, 0, 0⟩, true, 0, 0⟩ : GameState).lastMouseX
        clientY
        ⟨⟨0, 0, 0⟩, ⟨0, 0, 0⟩, ⟨0, 0, 0⟩, true, 0, 0⟩).rotation.x) :=
  c3_pitch_clamped_only_in_second_version
    ⟨⟨0, 0, 0⟩, ⟨0, 0, 0⟩, ⟨0, 0, 0⟩, true, 0, 0⟩ rfl

/-- C6 (counterexample): under the spec's own transition table, entering a
planar gravity zone zeroes the non-yaw rotation components, so entering and
immediately exiting (zero ticks inside) does NOT leave the orientation equal
to its value just before entry when pitch or roll was nonzero: from
orientation `(1, 2, 3)` the round trip returns orientation `(0, 2, 0)`. -/
theorem c6_counterexample_planar_roundtrip_changes_orientation :
    (exitPlanarZone (enterPlanarZone
        ⟨Regime.free, 0, ⟨1, 2, 3⟩, none⟩)).rot ≠
      (⟨Regime.free, 0, ⟨1, 2, 3⟩, none⟩ : ZoneState).rot := by
  intro h
  have hx := congrArg Rot3.x h
  simp only [exitPlanarZone, enterPlanarZone] at hx
  norm_num at hx

/-- C6 (amended): entering then immediately exiting a gravity zone, with zero
ticks elapsed inside, returns the regime to Free with a zero yaw offset (and,
for a radial zone, a cleared attractor reference).  For a radial zone the
orientation is exactly the one from just before entry; for a planar zone the
entry side effect zeroes the pitch and roll components, so the orientation is
preserved only in its yaw component.  At every moment exactly one regime is
active because the regime is a single enumerated value of the state. -/
theorem c6_zone_roundtrip (s : ZoneState) (center : Vec3) :
    (exitRadialZone (enterRadialZone center s)).regime = Regime.free ∧
    (exitRadialZone (enterRadialZone center s)).rot = s.rot ∧
    (exitRadialZone (enterRadialZone center s)).yawOffset = 0 ∧
    (exitRadialZone (enterRadialZone center s)).attractor = none ∧
    (exitPlanarZone (enterPlanarZone s)).regime = Regime.free ∧
    (exitPlanarZone (enterPlanarZone s)).rot = ⟨0, s.rot.y, 0⟩ ∧
    (exitPlanarZone (enterPlanarZone s)).yawOffset = 0 :=
  ⟨rfl, rfl, rfl, rfl, rfl, rfl, rfl⟩
